import Mathlib

/-!
Shallow embedding of the per-guild playback coordinator of the
discord-music-bot repository (src/backend/discord_music_bot/music.py,
src/backend/discord_music_bot/api.py, src/discord_music_bot/bot.py),
together with proofs settling the spec claims about it.

External collaborators (the discord voice client, yt-dlp, ffmpeg) are
modelled at their interface boundary: the voice client's rendering status
is an enumeration (idle / playing / paused, with is_playing true exactly
in the playing state and is_paused true exactly in the paused state,
matching discord.py where pausing clears the playing flag), and the
fallible external calls (source creation, vc.play, extraction) are
parameters of type Bool / Except describing their outcome.
-/

namespace DiscordMusicBot

/-- The immutable Track dataclass of music.py. -/
structure Track where
  title : String
  webpage_url : String
  stream_url : String
  requested_by : String
deriving DecidableEq, Repr

/-- GuildMusicState of music.py: queue, now-playing slot and volume
fraction. The asyncio.Lock is not data; critical sections appear in the
embedding as atomic steps of the functions below. -/
structure GuildMusicState where
  queue : List Track := []
  now_playing : Option Track := none
  volume : Rat := 1
deriving DecidableEq, Repr

/-- Rendering status of a guild voice client, as reported by the
discord.py gateway. -/
inductive VcStatus
  | idle
  | playing
  | paused
deriving DecidableEq, Repr

/-- discord.py VoiceClient.is_playing: true only while actively playing
(pausing clears it, as witnessed by play_next checking both flags). -/
def VcStatus.is_playing : VcStatus → Bool
  | .playing => true
  | _ => false

/-- discord.py VoiceClient.is_paused. -/
def VcStatus.is_paused : VcStatus → Bool
  | .paused => true
  | _ => false

/-- Environment a play_next invocation observes: whether bot.get_guild
found the guild, whether guild.voice_client is a connected VoiceClient,
the gateway rendering status, and the outcomes of the two fallible
render-start calls (FFmpegPCMAudio/PCMVolumeTransformer construction and
vc.play). -/
structure PlayEnv where
  hasGuild : Bool
  hasVoiceClient : Bool
  vcStatus : VcStatus
  sourceOk : Bool
  playOk : Bool
deriving DecidableEq, Repr

/-- The two failure points of starting a render in play_next. -/
inductive RenderError
  | sourceFailure
  | playFailure
deriving DecidableEq, Repr

/-- Combined outcome of the render-start sequence of play_next: creating
the ffmpeg source wrapped in a volume transformer, then calling vc.play. -/
def start_render (env : PlayEnv) : Except RenderError Unit :=
  if env.sourceOk then
    if env.playOk then .ok () else .error .playFailure
  else .error .sourceFailure

/-- Result of one play_next invocation: the session state it leaves
behind, the track whose render it started (if any), and whether it
re-scheduled itself via _schedule_play_next after a render-start failure. -/
structure PlayNextResult where
  state : GuildMusicState
  startedRender : Option Track
  rescheduled : Bool
deriving DecidableEq, Repr

/-- MusicManager.play_next of music.py (lines 226-294). Guard order as in
the source: missing guild or voice client clears now_playing; an active
render (playing or paused) returns untouched; an empty queue clears
now_playing; otherwise the head is popped and becomes now_playing under
the lock, then the render is started outside the lock, a failure being
logged and answered by re-scheduling play_next instead of raising. -/
def play_next (env : PlayEnv) (s : GuildMusicState) : PlayNextResult :=
  if !env.hasGuild || !env.hasVoiceClient then
    { state := { s with now_playing := none }, startedRender := none, rescheduled := false }
  else if env.vcStatus.is_playing || env.vcStatus.is_paused then
    { state := s, startedRender := none, rescheduled := false }
  else
    match s.queue with
    | [] =>
      { state := { s with now_playing := none }, startedRender := none, rescheduled := false }
    | track :: rest =>
      let popped : GuildMusicState := { s with queue := rest, now_playing := some track }
      match start_render env with
      | .error _ => { state := popped, startedRender := none, rescheduled := true }
      | .ok _ => { state := popped, startedRender := some track, rescheduled := false }

/-- MusicManager.set_volume_percent of music.py (lines 76-80): clamp the
requested percent to [0, 200], store the fraction, return the clamp. -/
def set_volume_percent (percent : Int) (s : GuildMusicState) : Int × GuildMusicState :=
  let clamped := max 0 (min 200 percent)
  (clamped, { s with volume := (clamped : Rat) / 100 })

/-- A sample track used by the concrete witnesses. -/
def sampleTrack : Track :=
  { title := "t", webpage_url := "w", stream_url := "u", requested_by := "r" }

/-- Observable actions of the render-completion callback. The vocabulary
includes mutateSessionState - touching queue or now_playing directly from
the rendering thread - which the source callback never performs. -/
inductive CallbackEffect
  | logPlaybackError
  | mutateSessionState
  | callSoonThreadsafeSchedulePlayNext
deriving DecidableEq, Repr

/-- The after_play closure registered with vc.play (music.py lines
265-276), as the sequence of effects it performs on the rendering thread:
log when the render ended with an error, then hand _schedule_play_next to
the bot event loop via loop.call_soon_threadsafe. -/
def after_play (err : Option String) : List CallbackEffect :=
  (if err.isSome then [.logPlaybackError] else []) ++
    [.callSoonThreadsafeSchedulePlayNext]

/-- The voice client protocol object of a guild, at the granularity the
command and HTTP surfaces consult it. -/
structure VoiceConn where
  connected : Bool
  status : VcStatus
deriving DecidableEq, Repr

/-- Guild-level environment of a surface handler: whether the bot can see
the guild, and its voice client. none for vc models both a missing
guild.voice_client and a protocol object that is not a discord.VoiceClient. -/
structure GuildEnv where
  present : Bool
  vc : Option VoiceConn
deriving DecidableEq, Repr

/-- api.py _connected_voice_client: the voice client when it is a
discord.VoiceClient and is_connected. -/
def connected_voice_client (g : GuildEnv) : Option VoiceConn :=
  match g.vc with
  | some v => if v.connected then some v else none
  | none => none

/-- Outcome of an HTTP handler: a 200 body, a 409 conflict or a 404. -/
inductive ApiResult
  | ok (message : String)
  | conflict (detail : String)
  | notFound (detail : String)
deriving DecidableEq, Repr

/-- api.py skip handler (lines 245-260). The Bool records whether
vc.stop() was signalled to the renderer. -/
def api_skip (g : GuildEnv) : ApiResult × Bool :=
  if !g.present then (.notFound "Guild is not available to the bot.", false)
  else
    match connected_voice_client g with
    | none => (.conflict "Bot is not connected to voice in this guild.", false)
    | some v =>
      if !v.status.is_playing then (.conflict "Nothing is currently playing.", false)
      else (.ok "Skipped.", true)

/-- bot.py skip slash command (lines 199-215): the reply text and whether
vc.stop() was signalled. -/
def bot_skip (g : GuildEnv) : String × Bool :=
  match g.vc with
  | none => ("I\x27m not connected.", false)
  | some v =>
    if !v.connected then ("I\x27m not connected.", false)
    else if !v.status.is_playing then ("Nothing is playing.", false)
    else ("Skipped.", true)

/-- A guild whose voice client is connected and paused. -/
def pausedGuild : GuildEnv :=
  { present := true, vc := some { connected := true, status := .paused } }

/-- api.py pause handler (lines 207-224). The Bool records whether
vc.pause() was signalled. Branch order as in the source: missing
connection is a conflict, an already-paused render gets a benign 200
message, nothing playing is a conflict, otherwise pause. -/
def api_pause (g : GuildEnv) : ApiResult × Bool :=
  if !g.present then (.notFound "Guild is not available to the bot.", false)
  else
    match connected_voice_client g with
    | none => (.conflict "Bot is not connected to voice in this guild.", false)
    | some v =>
      if v.status.is_paused then (.ok "Playback is already paused.", false)
      else if !v.status.is_playing then (.conflict "Nothing is currently playing.", false)
      else (.ok "Paused.", true)

/-- bot.py pause slash command (lines 156-176): reply text and whether
vc.pause() was signalled. -/
def bot_pause (g : GuildEnv) : String × Bool :=
  match g.vc with
  | none => ("I\x27m not connected.", false)
  | some v =>
    if !v.connected then ("I\x27m not connected.", false)
    else if v.status.is_paused then ("Playback is already paused.", false)
    else if !v.status.is_playing then ("Nothing is playing.", false)
    else ("Paused.", true)

/-- The two externally visible steps of a stop handler, in the order they
are performed. -/
inductive StopEvent
  | clearedState
  | signaledStop
deriving DecidableEq, Repr

/-- api.py stop handler (lines 262-275): clear queue and now_playing
under the lock, then signal vc.stop() to a connected voice client if one
exists. Returns the new state, the ordered event trace and the response. -/
def api_stop (g : GuildEnv) (s : GuildMusicState) :
    GuildMusicState × List StopEvent × ApiResult :=
  if !g.present then (s, [], .notFound "Guild is not available to the bot.")
  else
    let cleared : GuildMusicState := { s with queue := [], now_playing := none }
    match connected_voice_client g with
    | some _ =>
      (cleared, [.clearedState, .signaledStop], .ok "Stopped and cleared the queue.")
    | none => (cleared, [.clearedState], .ok "Stopped and cleared the queue.")

/-- bot.py stop slash command (lines 238-254): same ordering, keyed on
the interaction guild and its voice client. -/
def bot_stop (hasGuild : Bool) (vc : Option VoiceConn) (s : GuildMusicState) :
    GuildMusicState × List StopEvent × String :=
  if !hasGuild then (s, [], "Server only.")
  else
    let cleared : GuildMusicState := { s with queue := [], now_playing := none }
    match vc with
    | some v =>
      if v.connected then
        (cleared, [.clearedState, .signaledStop], "Stopped and cleared the queue.")
      else (cleared, [.clearedState], "Stopped and cleared the queue.")
    | none => (cleared, [.clearedState], "Stopped and cleared the queue.")

/-- A value read out of the yt-dlp info dict with dict.get: absent (get
returns None), a string, or some non-string value. -/
inductive PyVal
  | absent
  | str (s : String)
  | nonStr
deriving DecidableEq, Repr

/-- The truthiness-aware string read used throughout extract_track:
some s exactly when the value is a non-empty string. -/
def PyVal.asNonemptyStr : PyVal → Option String
  | .str s => if s = "" then none else some s
  | _ => none

/-- The fields of a yt-dlp info dict that extract_track reads. -/
structure InfoDict where
  title : PyVal
  webpage_url : PyVal
  url : PyVal
deriving DecidableEq, Repr

/-- An element of the entries list of a search result. -/
inductive EntryVal
  | notDict
  | dict (d : InfoDict)
deriving DecidableEq, Repr

/-- The outcome of the ydl.extract_info call, at the granularity
extract_track inspects it: a YoutubeDLError (flagged when its message
mentions a javascript runtime, challenge or signature), another
exception, a non-dict value, a dict without an entries key, or a dict
with one (whose value is or is not a list). -/
inductive ExtractResponse
  | ydlError (challengeRelated : Bool)
  | otherError
  | notDict
  | plain (d : InfoDict)
  | entriesNotList
  | entries (es : List EntryVal)
deriving DecidableEq, Repr

/-- next((entry for entry in entries if isinstance(entry, dict)), None). -/
def firstDictEntry : List EntryVal → Option InfoDict
  | [] => none
  | .dict d :: _ => some d
  | .notDict :: rest => firstDictEntry rest

/-- Final stage of MusicManager.extract_track (music.py lines 161-181):
build the Track from the chosen info dict - title defaults to a
placeholder, webpage_url falls back to the query, a missing or empty
stream url is an error. -/
def build_track (d : InfoDict) (query requester : String) : Except String Track :=
  let title := (d.title.asNonemptyStr).getD "Unknown title"
  let wurl := (d.webpage_url.asNonemptyStr).getD query
  match d.url.asNonemptyStr with
  | none => .error "Could not extract an audio stream URL."
  | some u =>
    .ok { title := title, webpage_url := wurl, stream_url := u, requested_by := requester }

/-- MusicManager.extract_track of music.py (lines 128-181): classify
extraction exceptions, unwrap a search-result entries list to its first
dict entry, and build the Track. -/
def extract_track (resp : ExtractResponse) (query requester : String) :
    Except String Track :=
  match resp with
  | .ydlError true =>
    .error ("YouTube challenge solving failed. Ensure a JS runtime " ++
      "(deno/node) is installed and accessible.")
  | .ydlError false =>
    .error "YouTube extraction failed for that query. Try another URL/search term."
  | .otherError => .error "Unexpected error while talking to YouTube."
  | .notDict => .error "Unexpected YouTube metadata shape."
  | .entriesNotList => .error "Unexpected YouTube response shape."
  | .entries es =>
    match firstDictEntry es with
    | none => .error "No playable result found for that query."
    | some d => build_track d query requester
  | .plain d => build_track d query requester

/-- An info dict with no usable title or webpage url and stream url "u". -/
def bareInfo : InfoDict := { title := .absent, webpage_url := .nonStr, url := .str "u" }

/-- bot.py play slash command (lines 124-154), after the reply plumbing:
ensure_voice may fail, then the track is extracted off-thread, then
appended to the queue under the lock; any exception before the append
leaves the state untouched and becomes the reply text. On success the
added-to-queue reply is sent and play_next runs when the voice client is
neither playing nor paused. -/
def bot_play (env : PlayEnv) (voice : Except String Unit)
    (extraction : Except String Track) (s : GuildMusicState) :
    GuildMusicState × String :=
  match voice with
  | .error e => (s, e)
  | .ok _ =>
    match extraction with
    | .error e => (s, e)
    | .ok track =>
      let appended : GuildMusicState := { s with queue := s.queue ++ [track] }
      let reply := "Added to queue: **" ++ track.title ++ "**\n" ++ track.webpage_url
      if !env.vcStatus.is_playing && !env.vcStatus.is_paused then
        ((play_next env appended).state, reply)
      else (appended, reply)

/-- MusicManager.get_volume_percent of music.py (lines 72-74):
int(round(state.volume * 100)). Python rounds half-integers to even
while round on Rat rounds them up; the stored volume is always an
integer number of percent, so the two agree on every reachable state. -/
def get_volume_percent (s : GuildMusicState) : Int := round (s.volume * 100)

/-- Reply lines assembled by the queue slash command (bot.py lines
288-293): the volume line unconditionally, then the now-playing line if
present, then one numbered line per track among the first ten queued. -/
def queue_lines (s : GuildMusicState) : List String :=
  ["Volume: " ++ toString (get_volume_percent s) ++ "%"] ++
    (match s.now_playing with
     | some t => ["Now: " ++ t.title]
     | none => []) ++
    ((s.queue.take 10).enum.map fun p => toString (p.1 + 1) ++ ". " ++ p.2.title)

/-- The overflow suffix of the queue reply. -/
def queue_more (s : GuildMusicState) : String :=
  if s.queue.length ≤ 10 then ""
  else "\n...and " ++ toString (s.queue.length - 10) ++ " more."

/-- The queue slash command reply (bot.py lines 278-300): the empty-lines
message, or the joined listing with the overflow suffix. -/
def queue_command (s : GuildMusicState) : String :=
  let lines := queue_lines s
  if lines.isEmpty then "Queue is empty."
  else "Queue:\n" ++ String.intercalate "\n" lines ++ queue_more s

/-- A successful truthiness check only ever returns a non-empty string. -/
theorem asNonemptyStr_ne_empty {v : PyVal} {u : String}
    (h : v.asNonemptyStr = some u) : u ≠ "" := by
  cases v with
  | str s =>
    by_cases hs : s = "" <;> simp [PyVal.asNonemptyStr, hs] at h
    subst h
    exact hs
  | absent => simp [PyVal.asNonemptyStr] at h
  | nonStr => simp [PyVal.asNonemptyStr] at h

/-- build_track succeeds only with the requester recorded and a
non-empty stream url. -/
theorem build_track_ok {d : InfoDict} {q r : String} {t : Track}
    (h : build_track d q r = .ok t) :
    t.stream_url ≠ "" ∧ t.requested_by = r := by
  unfold build_track at h
  cases hu : d.url.asNonemptyStr with
  | none => rw [hu] at h; exact absurd h (by simp)
  | some u =>
    rw [hu] at h
    cases h
    exact ⟨asNonemptyStr_ne_empty hu, rfl⟩

/-- C1: with a voice connection present and the gateway reporting an
active render (playing or paused), play_next returns with the session
state untouched - nothing is popped, now_playing is unchanged, and no
second render is started. -/
theorem c1_advance_idempotent_when_active (env : PlayEnv) (s : GuildMusicState)
    (hg : env.hasGuild = true) (hv : env.hasVoiceClient = true)
    (hact : env.vcStatus = .playing ∨ env.vcStatus = .paused) :
    play_next env s = { state := s, startedRender := none, rescheduled := false } := by
  unfold play_next
  rcases hact with h | h <;>
    simp [hg, hv, h, VcStatus.is_playing, VcStatus.is_paused]

/-- Concrete instance of C1: a paused render with a non-empty queue is
left exactly as found. -/
theorem c1_witness :
    play_next { hasGuild := true, hasVoiceClient := true, vcStatus := .paused,
                sourceOk := true, playOk := true }
        { queue := [sampleTrack], now_playing := some sampleTrack, volume := 1 } =
      { state := { queue := [sampleTrack], now_playing := some sampleTrack, volume := 1 },
        startedRender := none, rescheduled := false } :=
  c1_advance_idempotent_when_active _ _ rfl rfl (Or.inr rfl)

/-- C2: on both surfaces, stop leaves an empty queue and no now_playing,
and its event trace is exactly the state clear followed by the renderer
stop signal when a connected voice client exists, and the state clear
alone otherwise - so an active renderer is always signalled, and only
after the clear. -/
theorem c2_stop_clears_state_then_signals (g : GuildEnv) (vc : Option VoiceConn)
    (s s2 : GuildMusicState) (hp : g.present = true) :
    ((api_stop g s).1.queue = [] ∧ (api_stop g s).1.now_playing = none ∧
      (api_stop g s).2.1 =
        (if (connected_voice_client g).isSome then
          [.clearedState, .signaledStop] else [.clearedState])) ∧
    ((bot_stop true vc s2).1.queue = [] ∧ (bot_stop true vc s2).1.now_playing = none ∧
      (bot_stop true vc s2).2.1 =
        (if vc.elim false (fun v => v.connected) then
          [.clearedState, .signaledStop] else [.clearedState])) := by
  constructor
  · unfold api_stop
    rw [hp]
    cases connected_voice_client g <;> simp
  · unfold bot_stop
    cases vc with
    | none => simp
    | some v =>
      obtain ⟨c, st⟩ := v
      cases c <;> simp

/-- Concrete instance of C2: stopping a playing session with a queued
track clears everything and signals the renderer after the clear. -/
theorem c2_witness :
    ((api_stop pausedGuild
        { queue := [sampleTrack], now_playing := some sampleTrack, volume := 1 }).1.queue = [] ∧
      (api_stop pausedGuild
        { queue := [sampleTrack], now_playing := some sampleTrack, volume := 1 }).1.now_playing = none ∧
      (api_stop pausedGuild
        { queue := [sampleTrack], now_playing := some sampleTrack, volume := 1 }).2.1 =
        (if (connected_voice_client pausedGuild).isSome then
          [.clearedState, .signaledStop] else [.clearedState])) ∧
    ((bot_stop true (some { connected := true, status := .playing })
        { queue := [sampleTrack], now_playing := some sampleTrack, volume := 1 }).1.queue = [] ∧
      (bot_stop true (some { connected := true, status := .playing })
        { queue := [sampleTrack], now_playing := some sampleTrack, volume := 1 }).1.now_playing = none ∧
      (bot_stop true (some { connected := true, status := .playing })
        { queue := [sampleTrack], now_playing := some sampleTrack, volume := 1 }).2.1 =
        (if (some { connected := true, status := .playing } : Option VoiceConn).elim false
            (fun v => v.connected) then
          [.clearedState, .signaledStop] else [.clearedState])) :=
  c2_stop_clears_state_then_signals pausedGuild
    (some { connected := true, status := .playing })
    { queue := [sampleTrack], now_playing := some sampleTrack, volume := 1 }
    { queue := [sampleTrack], now_playing := some sampleTrack, volume := 1 } rfl

/-- C3: when the render start fails at either fallible point, play_next
still returns an ordinary result (the error is consumed, not propagated
to any caller): the broken head has been popped off the queue and
play_next has re-scheduled itself so the queue continues past it. -/
theorem c3_render_start_failure_self_heals (env : PlayEnv) (s : GuildMusicState)
    (track : Track) (rest : List Track) (e : RenderError)
    (hg : env.hasGuild = true) (hv : env.hasVoiceClient = true)
    (hidle : env.vcStatus = .idle) (hq : s.queue = track :: rest)
    (hfail : start_render env = .error e) :
    play_next env s =
      { state := { s with queue := rest, now_playing := some track },
        startedRender := none, rescheduled := true } := by
  unfold play_next
  simp [hg, hv, hidle, VcStatus.is_playing, VcStatus.is_paused, hq, hfail]

/-- Concrete instance of C3: ffmpeg source creation fails on the only
queued track; play_next pops it, starts nothing and re-schedules. -/
theorem c3_witness :
    play_next { hasGuild := true, hasVoiceClient := true, vcStatus := .idle,
                sourceOk := false, playOk := true }
        { queue := [sampleTrack], now_playing := none, volume := 1 } =
      { state := { queue := [], now_playing := some sampleTrack, volume := 1 },
        startedRender := none, rescheduled := true } :=
  c3_render_start_failure_self_heals _ _ sampleTrack [] .sourceFailure rfl rfl rfl rfl rfl

/-- C4: when extraction fails, the play command reports the extraction
error as its reply and the session state is returned exactly as it was -
the queue length and now_playing are unchanged, because extraction raises
before any append. -/
theorem c4_extraction_failure_leaves_state (env : PlayEnv) (s : GuildMusicState)
    (resp : ExtractResponse) (q requester e : String)
    (hx : extract_track resp q requester = .error e) :
    bot_play env (.ok ()) (extract_track resp q requester) s = (s, e) := by
  rw [hx]
  rfl

/-- Concrete instance of C4: a query with no playable search result
leaves the session untouched and reports the failure. -/
theorem c4_witness :
    bot_play { hasGuild := true, hasVoiceClient := true, vcStatus := .idle,
               sourceOk := true, playOk := true }
      (.ok ()) (extract_track (.entries [.notDict]) "query" "alice")
      { queue := [sampleTrack], now_playing := some sampleTrack, volume := 1 } =
    ({ queue := [sampleTrack], now_playing := some sampleTrack, volume := 1 },
      "No playable result found for that query.") :=
  c4_extraction_failure_leaves_state _ _ (.entries [.notDict]) "query" "alice" _ rfl

/-- C5 counterexample: the chat-command skip, issued while the render is
paused, replies that nothing is playing and does not stop the renderer -
it does not accept a paused render, contrary to the claim. -/
theorem c5_counterexample :
    bot_skip pausedGuild = ("Nothing is playing.", false) := rfl

/-- C5 amended: both surfaces require strictly a playing render. A skip
while paused is rejected on both: the chat command replies that nothing
is playing and the HTTP handler returns a conflict; the renderer is
stopped exactly when the status is playing. -/
theorem c5_skip_requires_playing_on_both_surfaces (g : GuildEnv) (v : VoiceConn)
    (hp : g.present = true) (hvc : g.vc = some v) (hconn : v.connected = true) :
    ((bot_skip g).2 = true ↔ v.status = .playing) ∧
    ((api_skip g).2 = true ↔ v.status = .playing) ∧
    (v.status = .paused →
      bot_skip g = ("Nothing is playing.", false) ∧
      api_skip g = (.conflict "Nothing is currently playing.", false)) := by
  obtain ⟨c, st⟩ := v
  cases hconn
  obtain ⟨p, vc⟩ := g
  cases hp
  cases hvc
  cases st <;>
    simp [bot_skip, api_skip, connected_voice_client, VcStatus.is_playing]

/-- Concrete instance of the amended C5: a playing render is skipped on
both surfaces, and the paused case is rejected on both. -/
theorem c5_witness :
    ((bot_skip pausedGuild).2 = true ↔
        VcStatus.paused = VcStatus.playing) ∧
    ((api_skip pausedGuild).2 = true ↔
        VcStatus.paused = VcStatus.playing) ∧
    (VcStatus.paused = VcStatus.paused →
      bot_skip pausedGuild = ("Nothing is playing.", false) ∧
      api_skip pausedGuild = (.conflict "Nothing is currently playing.", false)) :=
  c5_skip_requires_playing_on_both_surfaces pausedGuild
    { connected := true, status := .paused } rfl rfl rfl

/-- C6 counterexample: pause on an already-paused render does not return
a conflict error - both surfaces answer with a benign already-paused
message (an ok body over HTTP) and signal nothing. -/
theorem c6_counterexample :
    api_pause pausedGuild = (.ok "Playback is already paused.", false) ∧
    bot_pause pausedGuild = ("Playback is already paused.", false) :=
  ⟨rfl, rfl⟩

/-- C6 amended: pause requires an active, unpaused render and then
transitions it to paused; when nothing is playing it mutates nothing and
returns a conflict; when the render is already paused it mutates nothing
and returns a benign already-paused message rather than a conflict, on
both surfaces. -/
theorem c6_pause_preconditions (g : GuildEnv) (v : VoiceConn)
    (hp : g.present = true) (hvc : g.vc = some v) (hconn : v.connected = true) :
    ((api_pause g).2 = true ↔ v.status = .playing) ∧
    ((bot_pause g).2 = true ↔ v.status = .playing) ∧
    (v.status = .playing →
      api_pause g = (.ok "Paused.", true) ∧ bot_pause g = ("Paused.", true)) ∧
    (v.status = .idle →
      api_pause g = (.conflict "Nothing is currently playing.", false) ∧
      bot_pause g = ("Nothing is playing.", false)) ∧
    (v.status = .paused →
      api_pause g = (.ok "Playback is already paused.", false) ∧
      bot_pause g = ("Playback is already paused.", false)) := by
  obtain ⟨c, st⟩ := v
  cases hconn
  obtain ⟨p, vc⟩ := g
  cases hp
  cases hvc
  cases st <;>
    simp [bot_pause, api_pause, connected_voice_client,
      VcStatus.is_playing, VcStatus.is_paused]

/-- Concrete instance of the amended C6 at a paused render. -/
theorem c6_witness :
    ((api_pause pausedGuild).2 = true ↔ VcStatus.paused = VcStatus.playing) ∧
    ((bot_pause pausedGuild).2 = true ↔ VcStatus.paused = VcStatus.playing) ∧
    (VcStatus.paused = VcStatus.playing →
      api_pause pausedGuild = (.ok "Paused.", true) ∧
      bot_pause pausedGuild = ("Paused.", true)) ∧
    (VcStatus.paused = VcStatus.idle →
      api_pause pausedGuild = (.conflict "Nothing is currently playing.", false) ∧
      bot_pause pausedGuild = ("Nothing is playing.", false)) ∧
    (VcStatus.paused = VcStatus.paused →
      api_pause pausedGuild = (.ok "Playback is already paused.", false) ∧
      bot_pause pausedGuild = ("Playback is already paused.", false)) :=
  c6_pause_preconditions pausedGuild
    { connected := true, status := .paused } rfl rfl rfl

/-- C7: set_volume_percent returns max 0 (min 200 percent), stores that
value divided by 100 as the session volume fraction, and leaves the queue
and now_playing untouched. -/
theorem c7_set_volume_percent (percent : Int) (s : GuildMusicState) :
    (set_volume_percent percent s).1 = max 0 (min 200 percent) ∧
    (set_volume_percent percent s).2.volume =
      ((set_volume_percent percent s).1 : Rat) / 100 ∧
    (set_volume_percent percent s).2.queue = s.queue ∧
    (set_volume_percent percent s).2.now_playing = s.now_playing := by
  refine ⟨rfl, rfl, rfl, rfl⟩

/-- C8: for the selected info dict, the constructed Track takes the
extracted title or the placeholder, the extracted webpage url or the
original query, and extraction fails when the stream url is missing or
empty; every successfully extracted Track has a non-empty stream url and
records the requester. -/
theorem c8_track_construction (d : InfoDict) (q r : String) :
    (∀ u, d.url.asNonemptyStr = some u →
      extract_track (.plain d) q r =
        .ok { title := (d.title.asNonemptyStr).getD "Unknown title",
              webpage_url := (d.webpage_url.asNonemptyStr).getD q,
              stream_url := u, requested_by := r }) ∧
    (d.url.asNonemptyStr = none →
      extract_track (.plain d) q r = .error "Could not extract an audio stream URL.") ∧
    (∀ (resp : ExtractResponse) (t : Track),
      extract_track resp q r = .ok t → t.stream_url ≠ "" ∧ t.requested_by = r) := by
  refine ⟨?_, ?_, ?_⟩
  · intro u hu
    simp [extract_track, build_track, hu]
  · intro hu
    simp [extract_track, build_track, hu]
  · intro resp t h
    cases resp with
    | plain d2 => exact build_track_ok h
    | entries es =>
      simp only [extract_track] at h
      cases he : firstDictEntry es with
      | none => rw [he] at h; exact absurd h (by simp)
      | some d2 => rw [he] at h; exact build_track_ok h
    | ydlError c => cases c <;> exact absurd h (by simp [extract_track])
    | otherError => exact absurd h (by simp [extract_track])
    | notDict => exact absurd h (by simp [extract_track])
    | entriesNotList => exact absurd h (by simp [extract_track])

/-- Concrete instance of C8: defaults and fallback applied, stream url
carried through. -/
theorem c8_witness :
    extract_track (.plain bareInfo) "query" "alice" =
      .ok { title := "Unknown title", webpage_url := "query",
            stream_url := "u", requested_by := "alice" } :=
  (c8_track_construction bareInfo "query" "alice").1 "u" (by decide)

/-- C9: for every completion, normal or erroneous, the callback never
mutates session state on the foreign thread, and its final action is the
thread-safe handoff of the advance continuation to the coordinating loop. -/
theorem c9_after_play_marshals_only (err : Option String) :
    CallbackEffect.mutateSessionState ∉ after_play err ∧
    (after_play err).getLast? = some .callSoonThreadsafeSchedulePlayNext := by
  cases err <;> simp [after_play]

/-- C10: the lines list always starts with the volume line, so the
empty-lines branch of the queue command is unreachable: the reply is
always the listing branch and never the empty-queue message. -/
theorem c10_queue_empty_reply_unreachable (s : GuildMusicState) :
    (queue_lines s).head? =
      some ("Volume: " ++ toString (get_volume_percent s) ++ "%") ∧
    queue_command s =
      "Queue:\n" ++ String.intercalate "\n" (queue_lines s) ++ queue_more s ∧
    queue_command s ≠ "Queue is empty." := by
  refine ⟨rfl, ?_, ?_⟩
  · unfold queue_command
    rw [if_neg]
    simp [queue_lines]
  · unfold queue_command
    rw [if_neg]
    · intro h
      have h2 := congrArg String.data h
      simp [String.data_append] at h2
    · simp [queue_lines]

end DiscordMusicBot
